import Mathlib

/-!
# Leveled logging facade of servicekit (package log)

A shallow embedding of `log/scoped.go` (the `LogLevel` type, its constants and
its `Set`, `Get` and `String` methods) and of `log/zaplog.go` (the adapter of
a structured backend: `logger`, `ZapFactory`, `NewLogger`, `SyncAll`).

Conventions of the embedding.

* `LogLevel` is Go's `int32`; it is embedded as `Int`, and the conversion to
  `int32` is the explicit wrap `int32`.
* A pointer to a `LogLevel` is embedded as the content of the cell; a method
  that writes the cell returns the new content.
* The structured backend (zap) is an external sink.  It is embedded as the
  log of what is submitted to it: one `Record` per call of a level method of
  a handle, one entry of `syncs` per call of `Sync`.
* The mutex of `ZapFactory` orders the calls; the embedding is sequential,
  so a call is a function from the state before to the state after.
-/

namespace Servicekit

/-! ## scoped.go : LogLevel -/

/-- LogLevel represents the level at which the logger will emit log messages
(`type LogLevel int32`). -/
abbrev LogLevel := Int

/-- The predicate of the values an `int32` can hold. -/
def isInt32 (x : Int) : Prop := -2147483648 ≤ x ∧ x < 2147483648

instance (x : Int) : Decidable (isInt32 x) := by
  unfold isInt32; infer_instance

/-- The conversion `int32(x)`: two's complement wrap to 32 bits. -/
def int32 (x : Int) : Int := (x + 2147483648) % 4294967296 - 2147483648

/-- LogLevelDisabled completely disables logging of any events (`iota` = 0). -/
def LogLevelDisabled : LogLevel := 0

/-- LogLevelError is for fatal errors which should be handled by user code. -/
def LogLevelError : LogLevel := 1

/-- LogLevelWarn is for logging abnormal, but non-fatal library operation. -/
def LogLevelWarn : LogLevel := 2

/-- LogLevelInfo is for logging normal library operation. -/
def LogLevelInfo : LogLevel := 3

/-- LogLevelDebug is for logging low-level library information. -/
def LogLevelDebug : LogLevel := 4

/-- LogLevelTrace is for logging very low-level library information. -/
def LogLevelTrace : LogLevel := 5

/-- Set updates the LogLevel to the supplied value:
`atomic.StoreInt32((*int32)(ll), int32(newLevel))`.  The first argument is
the content of the cell before the store, the result its content after. -/
def LogLevel.Set (_ll : LogLevel) (newLevel : LogLevel) : LogLevel :=
  int32 newLevel

/-- Get retrieves the current LogLevel value:
`LogLevel(atomic.LoadInt32((*int32)(ll)))`.  The result is the value
returned together with the content of the cell after the load. -/
def LogLevel.Get (ll : LogLevel) : LogLevel × LogLevel :=
  (ll, ll)

/-- The `String` method: a `switch` over the six constants with a default. -/
def LogLevel.String (ll : LogLevel) : String :=
  if ll = LogLevelDisabled then "Disabled"
  else if ll = LogLevelError then "Error"
  else if ll = LogLevelWarn then "Warn"
  else if ll = LogLevelInfo then "Info"
  else if ll = LogLevelDebug then "Debug"
  else if ll = LogLevelTrace then "Trace"
  else "UNKNOWN"

/-! ## The ten methods of the LeveledLogger interface -/

/-- The methods of `LeveledLogger`, in the order of the interface. -/
inductive Method where
  | Trace | Tracef | Debug | Debugf | Info | Infof | Warn | Warnf | Error | Errorf
  deriving DecidableEq

/-- An operand of a formatted call (a value of `interface{}`): the kinds the
repository's tests and examples pass. -/
inductive Arg where
  | int (i : Int)
  | str (s : String)
  deriving DecidableEq

/-- The interpolation of a template with operands is the host's
(`fmt.Sprintf`, reached through the backend); the embedding takes it as a
parameter of this type. -/
abbrev Formatter := String → List Arg → String

/-! ## zaplog.go : the backend, as the log of what is submitted to it -/

/-- A frame of the call stack at the moment the backend is entered: a frame of
the program that uses the package, or the frame of a method that
`zaplog.go` defines on `logger`. -/
inductive Frame where
  | user (site : String)
  | adapter (m : Method)
  deriving DecidableEq

namespace zap

/-- The severities of the backend that the adapter uses. -/
inductive Level where
  | DebugLevel | InfoLevel | WarnLevel | ErrorLevel
  deriving DecidableEq

/-- A `*zap.Logger`, as far as the adapter configures it: the name of the
logger and the number of caller frames it skips. -/
structure Logger where
  name : String
  callerSkip : Nat
  deriving DecidableEq

/-- The backend's `Named`: the same logger for an empty segment, otherwise a
child whose name is the segment, joined to the parent's name by a period
when the parent has one. -/
def Logger.Named (log : Logger) (s : String) : Logger :=
  if s = "" then log
  else if log.name = "" then { log with name := s }
  else { log with name := log.name ++ "." ++ s }

/-- The option `zap.AddCallerSkip(skip)` applied by `WithOptions`. -/
def Logger.WithOptionsAddCallerSkip (log : Logger) (skip : Nat) : Logger :=
  { log with callerSkip := log.callerSkip + skip }

/-- A `*zap.SugaredLogger`: the handle `Sugar` derives from a logger.  The
frames of the handle's own methods are the backend's and are not counted in
`callerSkip`. -/
structure SugaredLogger where
  base : Logger
  deriving DecidableEq

/-- The backend's `Sugar`. -/
def Logger.Sugar (log : Logger) : SugaredLogger :=
  { base := log }

/-- One submission to the backend: the name of the handle's logger, the
severity, the message, the handle's caller skip, and the call stack above the
backend (innermost frame first). -/
structure Record where
  logger : String
  level : Level
  msg : String
  callerSkip : Nat
  stack : List Frame
  deriving DecidableEq

/-- The call site the backend attributes a record to: the frame at depth
`callerSkip` of the stack above the backend. -/
def Record.caller (r : Record) : Option Frame :=
  r.stack.get? r.callerSkip

/-- The state of the backend: the records submitted and the handles whose
`Sync` was called, both in order. -/
structure Sink where
  records : List Record
  syncs : List SugaredLogger
  deriving DecidableEq

/-- A submission through a handle at a severity. -/
def SugaredLogger.log (s : SugaredLogger) (lvl : Level) (msg : String)
    (stack : List Frame) (w : Sink) : Sink :=
  { w with records := w.records ++
      [{ logger := s.base.name, level := lvl, msg := msg,
         callerSkip := s.base.callerSkip, stack := stack }] }

/-- The backend's `Debug` on a message. -/
def SugaredLogger.Debug (s : SugaredLogger) (msg : String)
    (stack : List Frame) (w : Sink) : Sink :=
  s.log Level.DebugLevel msg stack w

/-- The backend's `Info` on a message. -/
def SugaredLogger.Info (s : SugaredLogger) (msg : String)
    (stack : List Frame) (w : Sink) : Sink :=
  s.log Level.InfoLevel msg stack w

/-- The backend's `Warn` on a message. -/
def SugaredLogger.Warn (s : SugaredLogger) (msg : String)
    (stack : List Frame) (w : Sink) : Sink :=
  s.log Level.WarnLevel msg stack w

/-- The backend's `Error` on a message. -/
def SugaredLogger.Error (s : SugaredLogger) (msg : String)
    (stack : List Frame) (w : Sink) : Sink :=
  s.log Level.ErrorLevel msg stack w

/-- The backend's `Debugf` on a template and its operands. -/
def SugaredLogger.Debugf (fmt : Formatter) (s : SugaredLogger) (format : String)
    (args : List Arg) (stack : List Frame) (w : Sink) : Sink :=
  s.log Level.DebugLevel (fmt format args) stack w

/-- The backend's `Infof` on a template and its operands. -/
def SugaredLogger.Infof (fmt : Formatter) (s : SugaredLogger) (format : String)
    (args : List Arg) (stack : List Frame) (w : Sink) : Sink :=
  s.log Level.InfoLevel (fmt format args) stack w

/-- The backend's `Warnf` on a template and its operands. -/
def SugaredLogger.Warnf (fmt : Formatter) (s : SugaredLogger) (format : String)
    (args : List Arg) (stack : List Frame) (w : Sink) : Sink :=
  s.log Level.WarnLevel (fmt format args) stack w

/-- The backend's `Errorf` on a template and its operands. -/
def SugaredLogger.Errorf (fmt : Formatter) (s : SugaredLogger) (format : String)
    (args : List Arg) (stack : List Frame) (w : Sink) : Sink :=
  s.log Level.ErrorLevel (fmt format args) stack w

/-- The backend's `Sync` on a handle.  Whether a flush fails is the
backend's: `fails k` tells whether the flush that is the `k`-th call of
`Sync` (counted from 0) reports an error. -/
def SugaredLogger.Sync (fails : Nat → Bool) (s : SugaredLogger) (w : Sink) :
    Option String × Sink :=
  (if fails w.syncs.length then some "sync failed" else none,
   { w with syncs := w.syncs ++ [s] })

end zap

/-! ## zaplog.go : the adapter -/

/-- The adapter's logger: the embedded handle `SugaredLogger` (whose methods
are promoted to `logger`), the handle `wrapped`, and the trace flag. -/
structure logger where
  SugaredLogger : zap.SugaredLogger
  wrapped : zap.SugaredLogger
  enableTrace : Bool
  deriving DecidableEq

/-- Method `Trace` of `logger`. -/
def logger.Trace (l : logger) (msg : String) (stack : List Frame) (w : zap.Sink) : zap.Sink :=
  if l.enableTrace then
    l.wrapped.Debug msg (Frame.adapter Method.Trace :: stack) w
  else w

/-- Method `Tracef` of `logger`. -/
def logger.Tracef (fmt : Formatter) (l : logger) (format : String) (args : List Arg)
    (stack : List Frame) (w : zap.Sink) : zap.Sink :=
  if l.enableTrace then
    l.wrapped.Debugf fmt format args (Frame.adapter Method.Tracef :: stack) w
  else w

/-- Method `Debug` of `logger`. -/
def logger.Debug (l : logger) (msg : String) (stack : List Frame) (w : zap.Sink) : zap.Sink :=
  l.wrapped.Debug msg (Frame.adapter Method.Debug :: stack) w

/-- Method `Info` of `logger`. -/
def logger.Info (l : logger) (msg : String) (stack : List Frame) (w : zap.Sink) : zap.Sink :=
  l.wrapped.Info msg (Frame.adapter Method.Info :: stack) w

/-- Method `Warn` of `logger`. -/
def logger.Warn (l : logger) (msg : String) (stack : List Frame) (w : zap.Sink) : zap.Sink :=
  l.wrapped.Warn msg (Frame.adapter Method.Warn :: stack) w

/-- Method `Error` of `logger`. -/
def logger.Error (l : logger) (msg : String) (stack : List Frame) (w : zap.Sink) : zap.Sink :=
  l.wrapped.Error msg (Frame.adapter Method.Error :: stack) w

/-- Method `Debugf` of `logger`: not defined in `zaplog.go`, it is the
method of the embedded handle, promoted; no frame of the adapter is on the
stack. -/
def logger.Debugf (fmt : Formatter) (l : logger) (format : String) (args : List Arg)
    (stack : List Frame) (w : zap.Sink) : zap.Sink :=
  l.SugaredLogger.Debugf fmt format args stack w

/-- Method `Infof` of `logger`, promoted from the embedded handle. -/
def logger.Infof (fmt : Formatter) (l : logger) (format : String) (args : List Arg)
    (stack : List Frame) (w : zap.Sink) : zap.Sink :=
  l.SugaredLogger.Infof fmt format args stack w

/-- Method `Warnf` of `logger`, promoted from the embedded handle. -/
def logger.Warnf (fmt : Formatter) (l : logger) (format : String) (args : List Arg)
    (stack : List Frame) (w : zap.Sink) : zap.Sink :=
  l.SugaredLogger.Warnf fmt format args stack w

/-- Method `Errorf` of `logger`, promoted from the embedded handle. -/
def logger.Errorf (fmt : Formatter) (l : logger) (format : String) (args : List Arg)
    (stack : List Frame) (w : zap.Sink) : zap.Sink :=
  l.SugaredLogger.Errorf fmt format args stack w

/-- A call of a method of the `LeveledLogger` interface on a `logger`: `text`
is the message of a plain method and the template of a formatted one, whose
operands are `args`. -/
def logger.call (fmt : Formatter) (l : logger) (m : Method) (text : String)
    (args : List Arg) (stack : List Frame) (w : zap.Sink) : zap.Sink :=
  match m with
  | Method.Trace => l.Trace text stack w
  | Method.Tracef => l.Tracef fmt text args stack w
  | Method.Debug => l.Debug text stack w
  | Method.Debugf => l.Debugf fmt text args stack w
  | Method.Info => l.Info text stack w
  | Method.Infof => l.Infof fmt text args stack w
  | Method.Warn => l.Warn text stack w
  | Method.Warnf => l.Warnf fmt text args stack w
  | Method.Error => l.Error text stack w
  | Method.Errorf => l.Errorf fmt text args stack w

/-- ZapFactory is a logger factory backended by zap logger. -/
structure ZapFactory where
  BaseLogger : zap.Logger
  EnableTrace : Bool
  loggers : List logger
  deriving DecidableEq

/-- NewLogger creates new scoped logger: the logger returned and the factory
after the call. -/
def ZapFactory.NewLogger (f : ZapFactory) (scope : String) : logger × ZapFactory :=
  let named := f.BaseLogger.Named scope
  let l : logger :=
    { SugaredLogger := named.Sugar,
      wrapped := (named.WithOptionsAddCallerSkip 1).Sugar,
      enableTrace := f.EnableTrace }
  (l, { f with loggers := f.loggers ++ [l] })

/-- SyncAll calls Sync() method of all child loggers; the result of each
`Sync` is discarded.  The function has no result in the source; the
embedding returns the factory and the backend after the call. -/
def ZapFactory.SyncAll (fails : Nat → Bool) (f : ZapFactory) (w : zap.Sink) :
    ZapFactory × zap.Sink :=
  (f, f.loggers.foldl (fun acc l => (l.SugaredLogger.Sync fails acc).2) w)

/-- An operation of a program on a `ZapFactory`. -/
inductive Op where
  | NewLogger (scope : String)
  | SyncAll
  deriving DecidableEq

/-- The number of `NewLogger` calls in a sequence of operations. -/
def Op.countNew (ops : List Op) : Nat :=
  (ops.filter (fun o => o != Op.SyncAll)).length

/-- A program's session with a factory: the factory, the backend, and the
loggers that the `NewLogger` calls so far returned, in the order of the
calls. -/
structure Session where
  factory : ZapFactory
  sink : zap.Sink
  returned : List logger
  deriving DecidableEq

/-- One operation of a session. -/
def Session.step (fails : Nat → Bool) (st : Session) : Op → Session
  | Op.NewLogger scope =>
      let r := st.factory.NewLogger scope
      { factory := r.2, sink := st.sink, returned := st.returned ++ [r.1] }
  | Op.SyncAll =>
      let r := st.factory.SyncAll fails st.sink
      { factory := r.1, sink := r.2, returned := st.returned }

/-- A sequence of operations of a session, from left to right. -/
def Session.run (fails : Nat → Bool) (st : Session) (ops : List Op) : Session :=
  ops.foldl (Session.step fails) st

/-- The number of frames of the adapter on top of a call stack. -/
def adapterDepth : List Frame → Nat
  | Frame.adapter _ :: rest => adapterDepth rest + 1
  | _ => 0

/-- The text of an operand under the verb `%v`. -/
def Arg.text : Arg → String
  | Arg.int i => toString i
  | Arg.str s => s

/-- A fragment of the host's `fmt.Sprintf`, on characters: the verb `%d` on an
integer operand, `%s` on a string operand, `%v` on any operand, and `%%`.
Whatever else is copied unchanged and lies outside the fragment. -/
def sprintfChars : List Char → List Arg → List Char
  | [], _ => []
  | '%' :: '%' :: cs, as => '%' :: sprintfChars cs as
  | '%' :: 'd' :: cs, Arg.int i :: as => (toString i).data ++ sprintfChars cs as
  | '%' :: 's' :: cs, Arg.str s :: as => s.data ++ sprintfChars cs as
  | '%' :: 'v' :: cs, a :: as => a.text.data ++ sprintfChars cs as
  | c :: cs, as => c :: sprintfChars cs as

/-- The fragment of `fmt.Sprintf` on strings; it evaluates the repository's
example `Errorf("test printf %d", 1)`. -/
def sprintfFragment : Formatter :=
  fun format args => String.mk (sprintfChars format.data args)

/-- The backend state `w2` is `w` followed by exactly one record, submitted
through the logger named `name` at severity `lvl` with message `msg`, and no
flush. -/
def submitsOne (w w2 : zap.Sink) (name : String) (lvl : zap.Level) (msg : String) : Prop :=
  ∃ r : zap.Record, w2.records = w.records ++ [r] ∧ r.logger = name ∧ r.level = lvl ∧
    r.msg = msg ∧ w2.syncs = w.syncs

/-! ## The scope-aware default factory

`DefaultLoggerFactory`, `DefaultLeveledLogger` and
`NewDefaultLeveledLoggerForScope` are used by `log_test.go`; the file that
defines them is not among the sources.  The definitions of this section
follow the specification. -/

/-- Modelled from the spec: the output destination of the default logger
family, missing from the sources.  A destination is "any byte-stream sink";
it is identified by a number. -/
abbrev Writer := Nat

/-- Modelled from the spec: the bytes that each output destination received so
far (the destinations are external collaborators, missing from the
sources). -/
abbrev Outputs := Writer → String

/-- Modelled from the spec: `DefaultLeveledLogger`, missing from the sources.
A produced logger carries "the resolved level (as its own independently
mutable `LogLevel`, NOT a shared reference to the factory's state)" and "the
factory's output destination at the time of creation"; its scope is
"attached to every message". -/
structure DefaultLeveledLogger where
  level : LogLevel
  scope : String
  writer : Writer
  deriving DecidableEq

/-- Modelled from the spec: the line the default logger writes, missing from
the sources: "the default logger writes level-tagged, formatted lines" to
its destination; the scope is "attached to every message". -/
def DefaultLeveledLogger.line (ll : DefaultLeveledLogger) (level : LogLevel)
    (msg : String) : String :=
  ll.scope ++ " " ++ LogLevel.String level ++ ": " ++ msg ++ "\n"

/-- Modelled from the spec: the filtered emission of `DefaultLeveledLogger`,
missing from the sources: "a plain or formatted call at level L produces
output if and only if L ≤ T", T being the logger's effective threshold, read
by `Get`; a filtered call is "a no-op with no observable output". -/
def DefaultLeveledLogger.logf (ll : DefaultLeveledLogger) (level : LogLevel)
    (msg : String) (outs : Outputs) : Outputs :=
  if level ≤ (LogLevel.Get ll.level).1 then
    Function.update outs ll.writer (outs ll.writer ++ ll.line level msg)
  else outs

/-- Modelled from the spec: `SetLevel` of `DefaultLeveledLogger`, missing from
the sources: it "atomically updates that instance's own level field". -/
def DefaultLeveledLogger.SetLevel (ll : DefaultLeveledLogger) (newLevel : LogLevel) :
    DefaultLeveledLogger :=
  { ll with level := LogLevel.Set ll.level newLevel }

/-- Modelled from the spec: `WithOutput` of `DefaultLeveledLogger`, missing
from the sources: it retargets the output destination of the instance. -/
def DefaultLeveledLogger.WithOutput (ll : DefaultLeveledLogger) (output : Writer) :
    DefaultLeveledLogger :=
  { ll with writer := output }

/-- Modelled from the spec: a call of one of the ten methods on a
`DefaultLeveledLogger`, missing from the sources.  A plain method "emits the
literal message at level X", a formatted method does the same on the
template interpolated with its operands. -/
def DefaultLeveledLogger.call (fmt : Formatter) (ll : DefaultLeveledLogger) (m : Method)
    (text : String) (args : List Arg) (outs : Outputs) : Outputs :=
  match m with
  | Method.Trace => ll.logf LogLevelTrace text outs
  | Method.Tracef => ll.logf LogLevelTrace (fmt text args) outs
  | Method.Debug => ll.logf LogLevelDebug text outs
  | Method.Debugf => ll.logf LogLevelDebug (fmt text args) outs
  | Method.Info => ll.logf LogLevelInfo text outs
  | Method.Infof => ll.logf LogLevelInfo (fmt text args) outs
  | Method.Warn => ll.logf LogLevelWarn text outs
  | Method.Warnf => ll.logf LogLevelWarn (fmt text args) outs
  | Method.Error => ll.logf LogLevelError text outs
  | Method.Errorf => ll.logf LogLevelError (fmt text args) outs

/-- Modelled from the spec: `NewDefaultLeveledLoggerForScope(scope, level,
writer)`, used by `log_test.go` and missing from the sources: a logger of
the scope at the level, writing to the destination. -/
def NewDefaultLeveledLoggerForScope (scope : String) (level : LogLevel) (writer : Writer) :
    DefaultLeveledLogger :=
  { level := level, scope := scope, writer := writer }

/-- Modelled from the spec: `DefaultLoggerFactory`, missing from the sources:
"a default `LogLevel`, a mapping from scope name to override `LogLevel`, and
a destination for output".  The mapping is embedded as its lookup. -/
structure DefaultLoggerFactory where
  Writer : Writer
  DefaultLogLevel : LogLevel
  ScopeLevels : String → Option LogLevel

/-- Modelled from the spec: `NewLogger` of `DefaultLoggerFactory`, missing from
the sources: it "looks up `scope` in the override mapping; if present, the
produced logger's effective threshold is the override value; otherwise the
factory's default level". -/
def DefaultLoggerFactory.NewLogger (f : DefaultLoggerFactory) (scope : String) :
    DefaultLeveledLogger :=
  match f.ScopeLevels scope with
  | some scopeLevel => NewDefaultLeveledLoggerForScope scope scopeLevel f.Writer
  | none => NewDefaultLeveledLoggerForScope scope f.DefaultLogLevel f.Writer

/-- Modelled from the spec: a program's state around a default factory, the
factory and the loggers it produced so far (each a separate instance). -/
structure World where
  factory : DefaultLoggerFactory
  produced : List DefaultLeveledLogger

/-- Modelled from the spec: the program calls `NewLogger(scope)` and keeps the
logger. -/
def World.NewLogger (w : World) (scope : String) : World :=
  { w with produced := w.produced ++ [w.factory.NewLogger scope] }

/-- Modelled from the spec: the program calls `SetLevel(newLevel)` on the
`i`-th logger produced; the update is of "that instance's own level
field". -/
def World.SetLevel (w : World) (i : Nat) (newLevel : LogLevel) : World :=
  { w with produced := w.produced.modify (fun ll => ll.SetLevel newLevel) i }

/-- The message of a call: the text of a plain method, the template
interpolated with the operands of a formatted one. -/
def Method.message (fmt : Formatter) (m : Method) (text : String) (args : List Arg) : String :=
  match m with
  | Method.Tracef | Method.Debugf | Method.Infof | Method.Warnf | Method.Errorf => fmt text args
  | _ => text

/-- The level of a method of the interface. -/
def Method.level : Method → LogLevel
  | Method.Trace | Method.Tracef => LogLevelTrace
  | Method.Debug | Method.Debugf => LogLevelDebug
  | Method.Info | Method.Infof => LogLevelInfo
  | Method.Warn | Method.Warnf => LogLevelWarn
  | Method.Error | Method.Errorf => LogLevelError

/-- The text `msg` occurs in the text `out`. -/
def contains (out msg : String) : Prop := List.IsInfix msg.data out.data

instance (out msg : String) : Decidable (contains out msg) := by
  unfold contains; infer_instance

/-! ## Theorems on LogLevel -/

theorem int32_of_isInt32 (x : Int) (h : isInt32 x) : int32 x = x := by
  unfold isInt32 at h
  unfold int32
  omega

theorem isInt32_int32 (x : Int) : isInt32 (int32 x) := by
  unfold isInt32 int32
  omega

theorem String_unknown (v : Int) (h : v < 0 ∨ 5 < v) :
    LogLevel.String v = "UNKNOWN" := by
  have h0 : ¬ v = 0 := by omega
  have h1 : ¬ v = 1 := by omega
  have h2 : ¬ v = 2 := by omega
  have h3 : ¬ v = 3 := by omega
  have h4 : ¬ v = 4 := by omega
  have h5 : ¬ v = 5 := by omega
  simp [LogLevel.String, LogLevelDisabled, LogLevelError, LogLevelWarn,
    LogLevelInfo, LogLevelDebug, LogLevelTrace, h0, h1, h2, h3, h4, h5]

/-- C1: `LogLevel.String` is total and equals the fixed table: "Disabled" at 0,
"Error" at 1, "Warn" at 2, "Info" at 3, "Debug" at 4, "Trace" at 5 (the values
of the six constants), and "UNKNOWN" at every other value, negative or
greater than 5. -/
theorem C1_String_table (v : LogLevel) :
    (LogLevelDisabled = 0 ∧ LogLevelError = 1 ∧ LogLevelWarn = 2 ∧
      LogLevelInfo = 3 ∧ LogLevelDebug = 4 ∧ LogLevelTrace = 5) ∧
    (v = 0 → LogLevel.String v = "Disabled") ∧
    (v = 1 → LogLevel.String v = "Error") ∧
    (v = 2 → LogLevel.String v = "Warn") ∧
    (v = 3 → LogLevel.String v = "Info") ∧
    (v = 4 → LogLevel.String v = "Debug") ∧
    (v = 5 → LogLevel.String v = "Trace") ∧
    ((v < 0 ∨ 5 < v) → LogLevel.String v = "UNKNOWN") := by
  refine ⟨⟨rfl, rfl, rfl, rfl, rfl, rfl⟩, ?_, ?_, ?_, ?_, ?_, ?_, ?_⟩
  · rintro rfl; rfl
  · rintro rfl; rfl
  · rintro rfl; rfl
  · rintro rfl; rfl
  · rintro rfl; rfl
  · rintro rfl; rfl
  · intro h
    have hv : ((v : Int) < 0 ∨ (5 : Int) < (v : Int)) := h
    exact String_unknown v hv

/-- C8: Set/Get round trip.  For every stored level `s` and every new level
`n` that is a 32-bit integer, `Get` after `Set n` returns exactly `n`
whatever `s` was; `Get` leaves the stored level unchanged, so that two
consecutive `Get`s return the same value; and `Set` always yields a cell
holding a 32-bit integer (it has no failing outcome). -/
theorem C8_Set_Get_roundtrip (s n : LogLevel) (hn : isInt32 n) :
    (LogLevel.Get (LogLevel.Set s n)).1 = n ∧
    (LogLevel.Get s).2 = s ∧
    (LogLevel.Get (LogLevel.Get s).2).1 = (LogLevel.Get s).1 ∧
    isInt32 (LogLevel.Set s n) := by
  refine ⟨?_, rfl, rfl, isInt32_int32 n⟩
  simp [LogLevel.Get, LogLevel.Set, int32_of_isInt32 n hn]

/-- Witness of C8 at the stored level Warn and the new level -7, a value
outside the six constants. -/
theorem C8_Set_Get_roundtrip_witness :
    isInt32 (-7) ∧
    (LogLevel.Get (LogLevel.Set LogLevelWarn (-7))).1 = -7 ∧
    (LogLevel.Get LogLevelWarn).2 = LogLevelWarn ∧
    (LogLevel.Get (LogLevel.Get LogLevelWarn).2).1 = (LogLevel.Get LogLevelWarn).1 ∧
    isInt32 (LogLevel.Set LogLevelWarn (-7)) :=
  ⟨by decide, C8_Set_Get_roundtrip LogLevelWarn (-7) (by decide)⟩

/-! ## Theorems on the adapter of the structured backend -/

theorem Named_callerSkip (log : zap.Logger) (s : String) :
    (log.Named s).callerSkip = log.callerSkip := by
  unfold zap.Logger.Named
  split
  · rfl
  · split <;> rfl

theorem syncLoop_spec (fails : Nat → Bool) (ls : List logger) (w : zap.Sink) :
    (ls.foldl (fun acc l => (l.SugaredLogger.Sync fails acc).2) w).syncs =
        w.syncs ++ ls.map (fun l => l.SugaredLogger) ∧
    (ls.foldl (fun acc l => (l.SugaredLogger.Sync fails acc).2) w).records = w.records := by
  induction ls generalizing w with
  | nil => simp
  | cons l rest ih =>
    have h := ih (l.SugaredLogger.Sync fails w).2
    simp only [List.foldl_cons, List.map_cons]
    refine ⟨?_, ?_⟩
    · rw [h.1]; simp [zap.SugaredLogger.Sync]
    · rw [h.2]; simp [zap.SugaredLogger.Sync]

theorem run_append (fails : Nat → Bool) (st : Session) (ops : List Op) (o : Op) :
    Session.run fails st (ops ++ [o]) = Session.step fails (Session.run fails st ops) o := by
  simp [Session.run, List.foldl_append]

theorem countNew_append (ops : List Op) (o : Op) :
    Op.countNew (ops ++ [o]) = Op.countNew ops + Op.countNew [o] := by
  simp [Op.countNew, List.filter_append]

theorem run_registry (fails : Nat → Bool) (st : Session) (ops : List Op) :
    ∃ created : List logger,
      (Session.run fails st ops).factory.loggers = st.factory.loggers ++ created ∧
      (Session.run fails st ops).returned = st.returned ++ created ∧
      created.length = Op.countNew ops := by
  induction ops using List.reverseRecOn with
  | nil => exact ⟨[], by simp [Session.run], by simp [Session.run], by simp [Op.countNew]⟩
  | append_singleton ops o ih =>
    obtain ⟨created, h1, h2, h3⟩ := ih
    rw [run_append, countNew_append]
    cases o with
    | NewLogger scope =>
      refine ⟨created ++ [((Session.run fails st ops).factory.NewLogger scope).1], ?_, ?_, ?_⟩
      · simp [Session.step, ZapFactory.NewLogger, h1]
      · simp [Session.step, h2]
      · simp [h3, Op.countNew]
    | SyncAll =>
      refine ⟨created, ?_, ?_, ?_⟩
      · simp [Session.step, ZapFactory.SyncAll, h1]
      · simp [Session.step, h2]
      · simp [h3, Op.countNew]

/-- C2: trace emulation in the zap adapter.  For the logger that
`ZapFactory.NewLogger` returns, whose trace flag is the factory's
`EnableTrace` at the time of the call, `Trace(msg)` and `Tracef(format, args)`
submit exactly one record to the backend, on the child named by the scope,
at the backend's Debug level and carrying the message (for `Tracef` the
template interpolated with its operands) when trace emission is enabled, and
leave the backend as it was when it is not. -/
theorem C2_trace_emulation (fmt : Formatter) (f : ZapFactory) (scope msg format : String)
    (args : List Arg) (stack : List Frame) (w : zap.Sink) :
    (f.NewLogger scope).1.enableTrace = f.EnableTrace ∧
    (if f.EnableTrace = true then
      submitsOne w ((f.NewLogger scope).1.Trace msg stack w)
        (f.BaseLogger.Named scope).name zap.Level.DebugLevel msg ∧
      submitsOne w ((f.NewLogger scope).1.Tracef fmt format args stack w)
        (f.BaseLogger.Named scope).name zap.Level.DebugLevel (fmt format args)
    else
      (f.NewLogger scope).1.Trace msg stack w = w ∧
      (f.NewLogger scope).1.Tracef fmt format args stack w = w) := by
  obtain ⟨base, et, ls⟩ := f
  refine ⟨rfl, ?_⟩
  cases et with
  | false =>
    exact ⟨rfl, rfl⟩
  | true =>
    exact ⟨⟨_, rfl, rfl, rfl, rfl, rfl⟩, ⟨_, rfl, rfl, rfl, rfl, rfl⟩⟩

/-- C3: `SyncAll` flushes every registered logger regardless of failures.  For
every registry and every assignment `fails` of failure to the individual
flushes, `SyncAll` calls `Sync` exactly once on each registered logger, in
the order of the registry (the `k`-th flush of the call is that of the
`k`-th logger), so that a failing flush does not prevent the later ones; the
outcome does not depend on `fails`, no record is submitted, the factory is
unchanged, and nothing but the factory and the backend is handed back to the
caller.  On a factory that started empty, the flushes are those of the
loggers that `NewLogger` returned, in the order of their creation. -/
theorem C3_SyncAll_flushes_all (fails : Nat → Bool) (f : ZapFactory) (w : zap.Sink) :
    (f.SyncAll fails w).2.syncs = w.syncs ++ f.loggers.map (fun l => l.SugaredLogger) ∧
    (f.SyncAll fails w).2.syncs.length = w.syncs.length + f.loggers.length ∧
    (∀ k, k < f.loggers.length →
      (f.SyncAll fails w).2.syncs[w.syncs.length + k]? =
        (f.loggers[k]?).map (fun l => l.SugaredLogger)) ∧
    f.SyncAll fails w = f.SyncAll (fun _ => false) w ∧
    (f.SyncAll fails w).2.records = w.records ∧
    (f.SyncAll fails w).1 = f ∧
    (∀ (base : zap.Logger) (enableTrace : Bool) (ops : List Op),
      (ZapFactory.SyncAll fails
        (Session.run fails
          { factory := { BaseLogger := base, EnableTrace := enableTrace, loggers := [] },
            sink := w, returned := [] } ops).factory
        (Session.run fails
          { factory := { BaseLogger := base, EnableTrace := enableTrace, loggers := [] },
            sink := w, returned := [] } ops).sink).2.syncs =
      (Session.run fails
          { factory := { BaseLogger := base, EnableTrace := enableTrace, loggers := [] },
            sink := w, returned := [] } ops).sink.syncs ++
        (Session.run fails
          { factory := { BaseLogger := base, EnableTrace := enableTrace, loggers := [] },
            sink := w, returned := [] } ops).returned.map (fun l => l.SugaredLogger)) := by
  have h := syncLoop_spec fails f.loggers w
  have h0 := syncLoop_spec (fun _ => false) f.loggers w
  have hs : (f.SyncAll fails w).2.syncs = w.syncs ++ f.loggers.map (fun l => l.SugaredLogger) := h.1
  refine ⟨hs, ?_, ?_, ?_, h.2, rfl, ?_⟩
  rotate_left 3
  · intro base enableTrace ops
    obtain ⟨created, h1, h2, _⟩ := run_registry fails
      { factory := { BaseLogger := base, EnableTrace := enableTrace, loggers := [] },
        sink := w, returned := [] } ops
    have hreg : (Session.run fails
          { factory := { BaseLogger := base, EnableTrace := enableTrace, loggers := [] },
            sink := w, returned := [] } ops).factory.loggers =
        (Session.run fails
          { factory := { BaseLogger := base, EnableTrace := enableTrace, loggers := [] },
            sink := w, returned := [] } ops).returned := by
      rw [h1, h2]
    rw [← hreg]
    exact (syncLoop_spec fails _ _).1
  · rw [hs]; simp
  · intro k _
    rw [hs, List.getElem?_append_right (by omega)]
    simp
  · have e : (f.SyncAll fails w).2 = (f.SyncAll (fun _ => false) w).2 := by
      have a1 : (f.SyncAll fails w).2.syncs = (f.SyncAll (fun _ => false) w).2.syncs := by
        rw [hs]; exact h0.1.symm
      have a2 : (f.SyncAll fails w).2.records = (f.SyncAll (fun _ => false) w).2.records := by
        exact h.2.trans h0.2.symm
      cases hx : (f.SyncAll fails w).2
      cases hy : (f.SyncAll (fun _ => false) w).2
      rw [hx, hy] at a1 a2
      simp at a1 a2
      rw [a1, a2]
    exact Prod.ext rfl e

/-- C9: registry invariant of `ZapFactory`.  Every `NewLogger` call appends
exactly the logger it returns at the end of the registry, the earlier
entries and their order unchanged, and changes nothing else of the factory;
`SyncAll` leaves the factory unchanged; hence after any sequence of
`NewLogger` and `SyncAll` calls on a factory that started with an empty
registry, the registry is exactly the list of the loggers returned, in the
order of their creation, as many as there were `NewLogger` calls; and from
any state the registry before a sequence of calls is a prefix of the
registry after it (it never shrinks). -/
theorem C9_registry_invariant (fails : Nat → Bool) (f : ZapFactory) (scope : String)
    (w : zap.Sink) (base : zap.Logger) (enableTrace : Bool) (st : Session) (ops : List Op) :
    (f.NewLogger scope).2.loggers = f.loggers ++ [(f.NewLogger scope).1] ∧
    (f.NewLogger scope).2.BaseLogger = f.BaseLogger ∧
    (f.NewLogger scope).2.EnableTrace = f.EnableTrace ∧
    (f.SyncAll fails w).1 = f ∧
    (Session.run fails
        { factory := { BaseLogger := base, EnableTrace := enableTrace, loggers := [] },
          sink := w, returned := [] } ops).factory.loggers =
      (Session.run fails
        { factory := { BaseLogger := base, EnableTrace := enableTrace, loggers := [] },
          sink := w, returned := [] } ops).returned ∧
    (Session.run fails
        { factory := { BaseLogger := base, EnableTrace := enableTrace, loggers := [] },
          sink := w, returned := [] } ops).factory.loggers.length = Op.countNew ops ∧
    List.IsPrefix st.factory.loggers (Session.run fails st ops).factory.loggers := by
  refine ⟨rfl, rfl, rfl, rfl, ?_, ?_, ?_⟩
  · obtain ⟨created, h1, h2, _⟩ := run_registry fails
      { factory := { BaseLogger := base, EnableTrace := enableTrace, loggers := [] },
        sink := w, returned := [] } ops
    rw [h1, h2]
  · obtain ⟨created, h1, _, h3⟩ := run_registry fails
      { factory := { BaseLogger := base, EnableTrace := enableTrace, loggers := [] },
        sink := w, returned := [] } ops
    rw [h1]; simpa using h3
  · obtain ⟨created, h1, _, _⟩ := run_registry fails st ops
    exact ⟨created, h1.symm⟩

/-- C4: pass-through without adapter-side filtering.  On the logger returned
by `ZapFactory.NewLogger(scope)`, each of `Debug`, `Info`, `Warn`, `Error`
submits exactly one record to the backend child named by the scope, at the
backend's level of the same name, with the message; each of `Debugf`, `Infof`,
`Warnf`, `Errorf` likewise submits exactly one record at that level whose
message is the template interpolated with the operands; none of the eight
depends on the trace flag.  In the repository's example, `NewLogger("scope")`
on a base logger without a name, then `Error("test")` and
`Errorf("test printf %d", 1)`, gives two records at the error level, of the
logger "scope", with the messages "test" and "test printf 1". -/
theorem C4_pass_through (fmt : Formatter) (f : ZapFactory) (scope msg format : String)
    (args : List Arg) (stack : List Frame) (w : zap.Sink) :
    submitsOne w ((f.NewLogger scope).1.Debug msg stack w)
      (f.BaseLogger.Named scope).name zap.Level.DebugLevel msg ∧
    submitsOne w ((f.NewLogger scope).1.Info msg stack w)
      (f.BaseLogger.Named scope).name zap.Level.InfoLevel msg ∧
    submitsOne w ((f.NewLogger scope).1.Warn msg stack w)
      (f.BaseLogger.Named scope).name zap.Level.WarnLevel msg ∧
    submitsOne w ((f.NewLogger scope).1.Error msg stack w)
      (f.BaseLogger.Named scope).name zap.Level.ErrorLevel msg ∧
    submitsOne w ((f.NewLogger scope).1.Debugf fmt format args stack w)
      (f.BaseLogger.Named scope).name zap.Level.DebugLevel (fmt format args) ∧
    submitsOne w ((f.NewLogger scope).1.Infof fmt format args stack w)
      (f.BaseLogger.Named scope).name zap.Level.InfoLevel (fmt format args) ∧
    submitsOne w ((f.NewLogger scope).1.Warnf fmt format args stack w)
      (f.BaseLogger.Named scope).name zap.Level.WarnLevel (fmt format args) ∧
    submitsOne w ((f.NewLogger scope).1.Errorf fmt format args stack w)
      (f.BaseLogger.Named scope).name zap.Level.ErrorLevel (fmt format args) ∧
    (∀ (b : Bool) (m : Method) (text : String), m ≠ Method.Trace → m ≠ Method.Tracef →
      logger.call fmt { (f.NewLogger scope).1 with enableTrace := b } m text args stack w =
        logger.call fmt (f.NewLogger scope).1 m text args stack w) ∧
    ((ZapFactory.NewLogger
          { BaseLogger := { name := "", callerSkip := 0 }, EnableTrace := false, loggers := [] }
          "scope").1.Errorf sprintfFragment "test printf %d" [Arg.int 1] []
        ((ZapFactory.NewLogger
          { BaseLogger := { name := "", callerSkip := 0 }, EnableTrace := false, loggers := [] }
          "scope").1.Error "test" [] { records := [], syncs := [] })).records.map
        (fun r => (r.level, r.logger, r.msg)) =
      [(zap.Level.ErrorLevel, "scope", "test"),
       (zap.Level.ErrorLevel, "scope", "test printf 1")] := by
  refine ⟨⟨_, rfl, rfl, rfl, rfl, rfl⟩, ⟨_, rfl, rfl, rfl, rfl, rfl⟩,
    ⟨_, rfl, rfl, rfl, rfl, rfl⟩, ⟨_, rfl, rfl, rfl, rfl, rfl⟩,
    ⟨_, rfl, rfl, rfl, rfl, rfl⟩, ⟨_, rfl, rfl, rfl, rfl, rfl⟩,
    ⟨_, rfl, rfl, rfl, rfl, rfl⟩, ⟨_, rfl, rfl, rfl, rfl, rfl⟩, ?_, by decide⟩
  intro b m text h1 h2
  cases m <;> first | rfl | exact absurd rfl h1 | exact absurd rfl h2

/-- C10: call-site attribution of the zap adapter.  A call of any of the ten
methods from a user frame, on the logger returned by `NewLogger`, submits
one record (none for `Trace` and `Tracef` when trace emission is off); the
caller skip of the handle the record went through is the base logger's plus
the number of adapter frames between the user's call and the backend, which
is 1 for `Trace`, `Tracef`, `Debug`, `Info`, `Warn`, `Error` (the methods
`zaplog.go` defines, emitting through the handle built with caller skip 1)
and 0 for `Debugf`, `Infof`, `Warnf`, `Errorf` (the methods of the embedded
handle); so the record is attributed to the frame the base logger would
attribute a direct call of the user to, which is the user's call when the
base logger skips no frame, and never a frame of the adapter. -/
theorem C10_call_site_attribution (fmt : Formatter) (f : ZapFactory) (scope : String)
    (m : Method) (text : String) (args : List Arg) (site : String) (rest : List Frame)
    (w : zap.Sink) :
    ∃ new : List zap.Record,
      (logger.call fmt (f.NewLogger scope).1 m text args (Frame.user site :: rest) w).records =
        w.records ++ new ∧
      new.length =
        (if (m = Method.Trace ∨ m = Method.Tracef) ∧ f.EnableTrace = false then 0 else 1) ∧
      (∀ r ∈ new,
        r.callerSkip = f.BaseLogger.callerSkip + adapterDepth r.stack ∧
        adapterDepth r.stack =
          (if m ∈ [Method.Trace, Method.Tracef, Method.Debug, Method.Info, Method.Warn,
              Method.Error] then 1 else 0) ∧
        r.caller = (Frame.user site :: rest).get? f.BaseLogger.callerSkip ∧
        (f.BaseLogger.callerSkip = 0 → r.caller = some (Frame.user site))) := by
  obtain ⟨base, et, ls⟩ := f
  have key : ∀ (r : zap.Record) (d e : Nat) (st : List Frame),
      r.callerSkip = base.callerSkip + d → r.stack = st ++ Frame.user site :: rest →
      st.length = d → adapterDepth r.stack = d → e = d →
      r.callerSkip = base.callerSkip + adapterDepth r.stack ∧ adapterDepth r.stack = e ∧
      r.caller = (Frame.user site :: rest).get? base.callerSkip ∧
      (base.callerSkip = 0 → r.caller = some (Frame.user site)) := by
    intro r d e st h1 h2 h3 h4 h5
    have hc : r.caller = (Frame.user site :: rest).get? base.callerSkip := by
      unfold zap.Record.caller
      rw [h1, h2, List.get?_eq_getElem?, List.get?_eq_getElem?,
        List.getElem?_append_right (by omega)]
      congr 1
      omega
    refine ⟨by rw [h4]; exact h1, by rw [h4, h5], hc, ?_⟩
    intro h0
    rw [hc, h0]
    rfl
  cases m <;> cases et <;>
    first
    | (refine ⟨[], (List.append_nil _).symm, ?_, ?_⟩
       · rfl
       · intro r hr
         cases hr)
    | (refine ⟨[_], rfl, ?_, ?_⟩
       · rfl
       · intro r hr
         rw [List.mem_singleton] at hr
         subst hr
         first
         | (apply key _ 1 _ [Frame.adapter _] <;>
             first
             | rfl
             | simp [ZapFactory.NewLogger, zap.Logger.Sugar, zap.Logger.WithOptionsAddCallerSkip,
                 Named_callerSkip])
         | (apply key _ 0 _ [] <;>
             first
             | rfl
             | simp [ZapFactory.NewLogger, zap.Logger.Sugar, zap.Logger.WithOptionsAddCallerSkip,
                 Named_callerSkip]))

/-! ## Theorems on the scope-aware default factory -/

theorem line_contains (ll : DefaultLeveledLogger) (level : LogLevel) (msg : String) :
    contains (ll.line level msg) msg := by
  unfold contains DefaultLeveledLogger.line
  refine ⟨(ll.scope ++ " " ++ LogLevel.String level ++ ": ").data, "\n".data, ?_⟩
  simp [String.data_append]

theorem contains_append_left (pre out msg : String) (h : contains out msg) :
    contains (pre ++ out) msg := by
  unfold contains at *
  obtain ⟨a, b, hab⟩ := h
  refine ⟨pre.data ++ a, b, ?_⟩
  simp [String.data_append, ← hab]

theorem line_length_pos (ll : DefaultLeveledLogger) (level : LogLevel) (msg : String) :
    0 < (ll.line level msg).length := by
  unfold DefaultLeveledLogger.line
  have h : ("\n" : String).length = 1 := by decide
  simp only [String.length_append, h]
  omega

theorem logf_spec (ll : DefaultLeveledLogger) (level : LogLevel) (msg : String)
    (outs : Outputs) :
    (level ≤ ll.level →
      ll.logf level msg outs ll.writer = outs ll.writer ++ ll.line level msg ∧
      contains (ll.logf level msg outs ll.writer) msg ∧
      ∀ d, d ≠ ll.writer → ll.logf level msg outs d = outs d) ∧
    (¬ level ≤ ll.level → ll.logf level msg outs = outs) ∧
    (ll.logf level msg outs ≠ outs ↔ level ≤ ll.level) := by
  have hyes : level ≤ ll.level →
      ll.logf level msg outs = Function.update outs ll.writer (outs ll.writer ++ ll.line level msg) := by
    intro h
    simp [DefaultLeveledLogger.logf, LogLevel.Get, h]
  have hno : ¬ level ≤ ll.level → ll.logf level msg outs = outs := by
    intro h
    simp [DefaultLeveledLogger.logf, LogLevel.Get, h]
  refine ⟨?_, hno, ?_⟩
  · intro h
    rw [hyes h]
    refine ⟨by simp, ?_, ?_⟩
    · simp only [Function.update_same]
      exact contains_append_left _ _ _ (line_contains ll level msg)
    · intro d hd
      simp [Function.update_noteq hd]
  · constructor
    · intro hne
      by_contra h
      exact hne (hno h)
    · intro h heq
      have h1 := congrFun heq ll.writer
      rw [hyes h] at h1
      simp only [Function.update_same] at h1
      have h2 := congrArg String.length h1
      have h3 := line_length_pos ll level msg
      simp only [String.length_append] at h2
      omega

theorem call_eq_logf (fmt : Formatter) (ll : DefaultLeveledLogger) (m : Method)
    (text : String) (args : List Arg) (outs : Outputs) :
    ll.call fmt m text args outs = ll.logf m.level (m.message fmt text args) outs := by
  cases m <;> rfl

/-- C5: per-scope level resolution of the default factory.  For every factory
and every scope `s`, the logger that `NewLogger(s)` produces has as initial
effective level the override of `s` when the override map has one for
exactly `s`, and the factory's default level otherwise.  With the default
Warn and the only override "foo" at Debug: the logger of "baz" writes nothing
on `Debug("x")` and writes a line containing "x" on `Warn("x")`, the logger
of "foo" writes a line containing "y" on `Debug("y")`, and the logger of
"foo.bar" has the default level (the lookup is by exact match). -/
theorem C5_scope_level_resolution (f : DefaultLoggerFactory) (s : String) :
    (∀ v, f.ScopeLevels s = some v → (LogLevel.Get (f.NewLogger s).level).1 = v) ∧
    (f.ScopeLevels s = none → (LogLevel.Get (f.NewLogger s).level).1 = f.DefaultLogLevel) ∧
    (f.NewLogger s).scope = s ∧ (f.NewLogger s).writer = f.Writer ∧
    ((DefaultLoggerFactory.NewLogger
        { Writer := 0, DefaultLogLevel := LogLevelWarn,
          ScopeLevels := fun k => if k = "foo" then some LogLevelDebug else none } "baz").call
        sprintfFragment Method.Debug "x" [] (fun _ => "") 0 = "" ∧
     contains ((DefaultLoggerFactory.NewLogger
        { Writer := 0, DefaultLogLevel := LogLevelWarn,
          ScopeLevels := fun k => if k = "foo" then some LogLevelDebug else none } "baz").call
        sprintfFragment Method.Warn "x" [] (fun _ => "") 0) "x" ∧
     contains ((DefaultLoggerFactory.NewLogger
        { Writer := 0, DefaultLogLevel := LogLevelWarn,
          ScopeLevels := fun k => if k = "foo" then some LogLevelDebug else none } "foo").call
        sprintfFragment Method.Debug "y" [] (fun _ => "") 0) "y" ∧
     (DefaultLoggerFactory.NewLogger
        { Writer := 0, DefaultLogLevel := LogLevelWarn,
          ScopeLevels := fun k => if k = "foo" then some LogLevelDebug else none }
        "foo.bar").level = LogLevelWarn) := by
  refine ⟨?_, ?_, ?_, ?_, by decide, by decide, by decide, by decide⟩
  · intro v hv
    simp [DefaultLoggerFactory.NewLogger, hv, NewDefaultLeveledLoggerForScope, LogLevel.Get]
  · intro hv
    simp [DefaultLoggerFactory.NewLogger, hv, NewDefaultLeveledLoggerForScope, LogLevel.Get]
  · unfold DefaultLoggerFactory.NewLogger
    split <;> rfl
  · unfold DefaultLoggerFactory.NewLogger
    split <;> rfl

/-- C6: threshold filtering of the default leveled logger.  The levels are
ordered Disabled(0) < Error(1) < Warn(2) < Info(3) < Debug(4) < Trace(5).
For each of the ten methods, of level L, and a logger whose effective level
is T: when L ≤ T the call appends one line to the logger's destination, the
destination then contains the message (the text of a plain call, the
interpolated template of a formatted one), and no other destination
changes; when not, nothing is written anywhere; so the call writes if and
only if L ≤ T.  A logger at Warn writes nothing for `Debug` and `Debugf` and
writes the message for `Warn`, `Warnf`, `Error` and `Errorf`. -/
theorem C6_threshold_filtering (fmt : Formatter) (ll : DefaultLeveledLogger) (m : Method)
    (text : String) (args : List Arg) (outs : Outputs) :
    (LogLevelDisabled < LogLevelError ∧ LogLevelError < LogLevelWarn ∧
      LogLevelWarn < LogLevelInfo ∧ LogLevelInfo < LogLevelDebug ∧
      LogLevelDebug < LogLevelTrace) ∧
    (m.level ≤ (LogLevel.Get ll.level).1 →
      ll.call fmt m text args outs ll.writer =
        outs ll.writer ++ ll.line m.level (m.message fmt text args) ∧
      contains (ll.call fmt m text args outs ll.writer) (m.message fmt text args) ∧
      ∀ d, d ≠ ll.writer → ll.call fmt m text args outs d = outs d) ∧
    (¬ m.level ≤ (LogLevel.Get ll.level).1 → ll.call fmt m text args outs = outs) ∧
    (ll.call fmt m text args outs ≠ outs ↔ m.level ≤ (LogLevel.Get ll.level).1) ∧
    ((NewDefaultLeveledLoggerForScope "test1" LogLevelWarn 0).call sprintfFragment
        Method.Debug "this should not be logged" [] (fun _ => "") 0 = "" ∧
     (NewDefaultLeveledLoggerForScope "test1" LogLevelWarn 0).call sprintfFragment
        Method.Debugf "this should not be logged" [] (fun _ => "") 0 = "" ∧
     contains ((NewDefaultLeveledLoggerForScope "test1" LogLevelWarn 0).call sprintfFragment
        Method.Warn "this is a warning message" [] (fun _ => "") 0)
        "this is a warning message" ∧
     contains ((NewDefaultLeveledLoggerForScope "test1" LogLevelWarn 0).call sprintfFragment
        Method.Warnf "this is a warning message" [] (fun _ => "") 0)
        "this is a warning message" ∧
     contains ((NewDefaultLeveledLoggerForScope "test1" LogLevelWarn 0).call sprintfFragment
        Method.Error "this is an error message" [] (fun _ => "") 0)
        "this is an error message" ∧
     contains ((NewDefaultLeveledLoggerForScope "test1" LogLevelWarn 0).call sprintfFragment
        Method.Errorf "this is an error message" [] (fun _ => "") 0)
        "this is an error message") := by
  have h := logf_spec ll m.level (m.message fmt text args) outs
  rw [call_eq_logf]
  refine ⟨by decide, h.1, h.2.1, h.2.2, by decide, by decide, by decide, by decide,
    by decide, by decide⟩

/-- C7: `SetLevel` on a produced default logger changes only that logger.
After `SetLevel(N)` on the `i`-th logger produced, N a 32-bit integer, that
logger has level N and filters every later call with the threshold N; the
factory (its default level, its override map, its destination), the number
of loggers and every other logger produced are unchanged. -/
theorem C7_SetLevel_frame (w : World) (i : Nat) (n : LogLevel) (hn : isInt32 n) :
    (∀ ll, w.produced[i]? = some ll →
      (w.SetLevel i n).produced[i]? = some (ll.SetLevel n) ∧
      (LogLevel.Get (ll.SetLevel n).level).1 = n ∧
      (ll.SetLevel n).scope = ll.scope ∧ (ll.SetLevel n).writer = ll.writer ∧
      ∀ (fmt : Formatter) (m : Method) (text : String) (args : List Arg) (outs : Outputs),
        ((ll.SetLevel n).call fmt m text args outs ≠ outs ↔ m.level ≤ n) ∧
        (m.level ≤ n →
          contains ((ll.SetLevel n).call fmt m text args outs ll.writer)
            (m.message fmt text args))) ∧
    (w.SetLevel i n).factory = w.factory ∧
    (w.SetLevel i n).produced.length = w.produced.length ∧
    (∀ j, j ≠ i → (w.SetLevel i n).produced[j]? = w.produced[j]?) := by
  have hlevel : ∀ ll : DefaultLeveledLogger, (ll.SetLevel n).level = n := by
    intro ll
    simp [DefaultLeveledLogger.SetLevel, LogLevel.Set, int32_of_isInt32 n hn]
  refine ⟨?_, rfl, ?_, ?_⟩
  · intro ll hll
    refine ⟨?_, ?_, rfl, rfl, ?_⟩
    · simp [World.SetLevel, List.getElem?_modify, hll]
    · simp [LogLevel.Get, hlevel]
    · intro fmt m text args outs
      have h := logf_spec (ll.SetLevel n) m.level (m.message fmt text args) outs
      rw [call_eq_logf, hlevel] at *
      refine ⟨h.2.2, ?_⟩
      intro hle
      exact (h.1 hle).2.1
  · simp [World.SetLevel, List.length_modify]
  · intro j hj
    simp only [World.SetLevel, List.getElem?_modify]
    have hne : ¬ i = j := fun e => hj e.symm
    cases w.produced[j]? <;> simp [hne]

/-- Witness of C7, on the test of the repository: a factory with default Warn
produces the loggers "testSetLevel" and "other"; `Debug("z")` on the first
writes nothing; after `SetLevel(Debug)` on the first, its level is Debug,
`Debug("z")` writes a line containing "z", and the second logger and the
factory's default are as before. -/
theorem C7_SetLevel_frame_witness :
    isInt32 LogLevelDebug ∧
    (NewDefaultLeveledLoggerForScope "testSetLevel" LogLevelWarn 0).call sprintfFragment
      Method.Debug "z" [] (fun _ => "") 0 = "" ∧
    (World.SetLevel
      (World.NewLogger (World.NewLogger
        { factory := { Writer := 0, DefaultLogLevel := LogLevelWarn,
                       ScopeLevels := fun _ => none },
          produced := [] } "testSetLevel") "other") 0 LogLevelDebug).produced[0]? =
      some ((NewDefaultLeveledLoggerForScope "testSetLevel" LogLevelWarn 0).SetLevel
        LogLevelDebug) ∧
    (LogLevel.Get ((NewDefaultLeveledLoggerForScope "testSetLevel" LogLevelWarn 0).SetLevel
        LogLevelDebug).level).1 = LogLevelDebug ∧
    contains (((NewDefaultLeveledLoggerForScope "testSetLevel" LogLevelWarn 0).SetLevel
        LogLevelDebug).call sprintfFragment Method.Debug "z" [] (fun _ => "") 0) "z" ∧
    (World.SetLevel
      (World.NewLogger (World.NewLogger
        { factory := { Writer := 0, DefaultLogLevel := LogLevelWarn,
                       ScopeLevels := fun _ => none },
          produced := [] } "testSetLevel") "other") 0 LogLevelDebug).produced[1]? =
      some (NewDefaultLeveledLoggerForScope "other" LogLevelWarn 0) ∧
    (World.SetLevel
      (World.NewLogger (World.NewLogger
        { factory := { Writer := 0, DefaultLogLevel := LogLevelWarn,
                       ScopeLevels := fun _ => none },
          produced := [] } "testSetLevel") "other") 0 LogLevelDebug).factory.DefaultLogLevel =
      LogLevelWarn :=
  have h := C7_SetLevel_frame
    (World.NewLogger (World.NewLogger
      { factory := { Writer := 0, DefaultLogLevel := LogLevelWarn,
                     ScopeLevels := fun _ => none },
        produced := [] } "testSetLevel") "other") 0 LogLevelDebug (by decide)
  have h0 := h.1 (NewDefaultLeveledLoggerForScope "testSetLevel" LogLevelWarn 0) rfl
  ⟨by decide, by decide, h0.1, h0.2.1,
    (h0.2.2.2.2 sprintfFragment Method.Debug "z" [] (fun _ => "")).2 (by decide),
    (h.2.2.2 1 (by decide)).trans rfl, by rw [h.2.1]; rfl⟩

end Servicekit
